import Mathlib

/-!
Verification of the Bullhorn REST client core: the route/URL builder
(`bullhorn/route.py`), the request executor with retry and backoff
(`BullhornClient.request` in `bullhorn/client.py`), the HTTP error
taxonomy (`bullhorn/exceptions.py`), and the paged accessor
`BullhornClient.get_placements`.

The embedding models Python JSON values, `urllib.parse.quote` and
`urlencode`, `str.format_map`, the `HTTPException` constructor, and the
five-attempt retry loop as executable Lean functions translated from the
source files.
-/

/-- JSON values as deserialised by `response.json()`.  `num` covers the
integral numbers appearing in the modelled code paths. -/
inductive Json where
  | null
  | bool (b : Bool)
  | num (n : Int)
  | str (s : String)
  | arr (elems : List Json)
  | obj (fields : List (String × Json))

/-- Scalar parameter values passed to `Route`: the repository's
`path_params` and `query_params` maps hold strings, ints and bools. -/
inductive Scalar where
  | s (v : String)
  | n (v : Int)
  | b (v : Bool)
deriving DecidableEq

/-- Python `str()` of a scalar, as `format` and `urlencode` render
values substituted into URLs. -/
def pyStrScalar : Scalar → String
  | .s v => v
  | .n v => toString v
  | .b v => if v then "True" else "False"

/-- UTF-8 bytes of a character, as `urllib.parse.quote` encodes
characters outside the safe set. -/
def utf8Bytes (c : Char) : List Nat :=
  let n := c.toNat
  if n < 128 then [n]
  else if n < 2048 then [192 + n / 64, 128 + n % 64]
  else if n < 65536 then [224 + n / 4096, 128 + n / 64 % 64, 128 + n % 64]
  else [240 + n / 262144, 128 + n / 4096 % 64, 128 + n / 64 % 64, 128 + n % 64]

/-- Uppercase hexadecimal digit, as CPython's `quote` produces. -/
def hexDigit (n : Nat) : Char :=
  if n < 10 then Char.ofNat (48 + n) else Char.ofNat (55 + n)

/-- One percent-encoded byte. -/
def percentByte (b : Nat) : String :=
  String.mk ['%', hexDigit (b / 16), hexDigit (b % 16)]

/-- Characters `urllib.parse.quote` never encodes: ASCII letters, digits
and `_.-~`. -/
def alwaysSafe (c : Char) : Bool :=
  c.isAlpha || c.isDigit || c = '_' || c = '.' || c = '-' || c = '~'

/-- Models `urllib.parse.quote` with its default `safe="/"`, the
`_uriquote` applied to string path parameters. -/
def uriquote (s : String) : String :=
  String.join (s.data.map fun c =>
    if alwaysSafe c || c = '/' then String.mk [c]
    else String.join ((utf8Bytes c).map percentByte))

/-- Models `urllib.parse.quote_plus` (`safe=""`, space encoded as `+`),
which `urlencode` applies to query keys and values. -/
def quotePlus (s : String) : String :=
  String.join (s.data.map fun c =>
    if c = ' ' then "+"
    else if alwaysSafe c then String.mk [c]
    else String.join ((utf8Bytes c).map percentByte))

/-- Models `urllib.parse.urlencode` over an insertion-ordered map. -/
def urlencodePy (qs : List (String × Scalar)) : String :=
  String.intercalate "&" (qs.map fun kv => quotePlus kv.1 ++ "=" ++ quotePlus (pyStrScalar kv.2))

/-- The opening brace character of a template placeholder. -/
def obr : Char := '\x7b'

/-- The closing brace character of a template placeholder. -/
def cbr : Char := '\x7d'

/-- Errors raised by `str.format_map` during URL construction:
`keyError` models Python's `KeyError` for a placeholder missing from the
map (the spec taxonomy's `TemplateError`), `valueError` models
`ValueError` for a malformed template. -/
inductive FmtError where
  | keyError (name : String)
  | valueError (msg : String)
deriving DecidableEq

/-- Prepend a string to the output of a format computation. -/
def pre (s : String) : Except FmtError String → Except FmtError String
  | .ok t => .ok (s ++ t)
  | .error e => .error e

/-- Scanner state of the `str.format_map` parser: plain literal text,
directly after an opening brace, directly after a closing brace, or
inside a placeholder with the field name read so far. -/
inductive FmtState where
  | lit
  | sawOpen
  | sawClose
  | inField (acc : String)

/-- Models CPython `str.format_map` restricted to the simple `{name}`
placeholders used by the repository's URL templates (doubled braces are
the usual escapes, an unmatched brace is a `ValueError`, a placeholder
missing from the map is a `KeyError`).  Conversion and format
specifications and attribute or index access in field names are not used
by any template in the repository and are not modelled. -/
def fmAux (m : String → Option String) (st : FmtState) : List Char → Except FmtError String
  | [] =>
    match st with
    | FmtState.lit => Except.ok ""
    | FmtState.sawOpen => Except.error (FmtError.valueError "single opening brace encountered")
    | FmtState.sawClose => Except.error (FmtError.valueError "single closing brace encountered")
    | FmtState.inField _ => Except.error (FmtError.valueError "expected closing brace")
  | c :: rest =>
    match st with
    | FmtState.lit =>
      if c = obr then fmAux m FmtState.sawOpen rest
      else if c = cbr then fmAux m FmtState.sawClose rest
      else pre c.toString (fmAux m FmtState.lit rest)
    | FmtState.sawOpen =>
      if c = obr then pre "\x7b" (fmAux m FmtState.lit rest)
      else if c = cbr then
        match m "" with
        | none => Except.error (FmtError.keyError "")
        | some v => pre v (fmAux m FmtState.lit rest)
      else fmAux m (FmtState.inField ("".push c)) rest
    | FmtState.sawClose =>
      if c = cbr then pre "\x7d" (fmAux m FmtState.lit rest)
      else Except.error (FmtError.valueError "single closing brace encountered")
    | FmtState.inField acc =>
      if c = cbr then
        match m acc with
        | none => Except.error (FmtError.keyError acc)
        | some v => pre v (fmAux m FmtState.lit rest)
      else if c = obr then
        Except.error (FmtError.valueError "unexpected opening brace in field name")
      else fmAux m (FmtState.inField (acc.push c)) rest

/-- Python `str.format_map` on a template string. -/
def formatMap (s : String) (m : String → Option String) : Except FmtError String :=
  fmAux m FmtState.lit s.data

/-- The `Route` value object of `bullhorn/route.py`: HTTP method, raw
path template, and the URL computed at construction time. -/
structure Route where
  method : String
  path : String
  url : String
deriving DecidableEq

/-- Per-parameter encoding performed by `Route.__init__`: string values
are percent-encoded with `urllib.parse.quote`, other values are
substituted verbatim (rendered by `format` as Python `str`). -/
def encodeParam : Scalar → String
  | .s v => uriquote v
  | .n v => toString v
  | .b v => if v then "True" else "False"

/-- Models `Route.__init__`: substitutes path parameters into the
template only when `path_params` is non-empty, then appends the
URL-encoded query string when `query_params` is non-empty.  An
`Except.error` models the `KeyError` or `ValueError` raised by
`str.format_map`. -/
def mkRoute (method path : String) (path_params query_params : List (String × Scalar)) :
    Except FmtError Route :=
  match (if path_params.isEmpty then Except.ok path
         else formatMap path fun k => (List.lookup k path_params).map encodeParam) with
  | Except.error e => Except.error e
  | Except.ok url1 =>
    Except.ok { method := method, path := path,
                url := if query_params.isEmpty then url1
                       else url1 ++ "?" ++ urlencodePy query_params }

/-- The `key` property of `Route`. -/
def Route.key (r : Route) : String := r.method ++ " " ++ r.path

/-- Attributes carried by an `HTTPException` (`bullhorn/exceptions.py`):
the HTTP status, the provider error code (the `code` entry of a dict
body, default `0`) and the extracted message text.  `code` and `text`
keep Python's dynamic typing as `Json` values. -/
structure HTTPErrInfo where
  status : Nat
  code : Json
  text : Json

/-- Python truthiness of a JSON value. -/
def jsonTruthy : Json → Bool
  | Json.null => false
  | Json.bool b => b
  | Json.num n => n != 0
  | Json.str s => s != ""
  | Json.arr xs => !xs.isEmpty
  | Json.obj fs => !fs.isEmpty

/-- Python `repr` of a JSON value (string quoting is approximated
without escape handling), as container entries are rendered. -/
def pyReprN : Json → String
  | Json.null => "None"
  | Json.bool b => if b then "True" else "False"
  | Json.num n => toString n
  | Json.str s => "\x27" ++ s ++ "\x27"
  | Json.arr elems =>
    "[" ++ String.intercalate ", " (elems.attach.map fun x => pyReprN x.1) ++ "]"
  | Json.obj fields =>
    "\x7b" ++ String.intercalate ", "
      (fields.attach.map fun kv => "\x27" ++ kv.1.1 ++ "\x27: " ++ pyReprN kv.1.2) ++ "\x7d"
decreasing_by
  · simp_wf
    rcases x with ⟨xv, hx⟩
    have h := List.sizeOf_lt_of_mem hx
    simp at h ⊢
    omega
  · simp_wf
    rcases kv with ⟨⟨a, b⟩, hkv⟩
    have h := List.sizeOf_lt_of_mem hkv
    simp at h ⊢
    omega

/-- Python `str` of a JSON value, as applied by the `%s` formatting of
flattened error lines: a top-level string stays bare, containers render
by `repr`. -/
def pyRepr : Json → String
  | Json.str s => s
  | j => pyReprN j

/-- Models `" ".join(x.get("message", "") for x in _errors)`; `none`
marks lists on which Python itself raises (non-dict entries or
non-string message values). -/
def errorsLeafMsgs (xs : List Json) : Option String :=
  (xs.mapM fun x =>
    match x with
    | Json.obj fs =>
      match (List.lookup "message" fs).getD (Json.str "") with
      | Json.str s => some s
      | _ => none
    | _ => none).map (String.intercalate " ")

/-- Python `dict(items)` over string pairs: position of the first
occurrence of a key, value of its last occurrence. -/
def pyDict (ps : List (String × String)) : List (String × String) :=
  ps.foldl (fun acc kv =>
    if acc.any fun e => e.1 = kv.1 then
      acc.map fun e => if e.1 = kv.1 then (e.1, kv.2) else e
    else acc ++ [kv]) []

/-- Models `_flatten_error_dict`: flattens a nested error dictionary to
`path → message` pairs.  A nested dict carrying an `_errors` list is a
leaf whose messages are joined; any other dict is recursed into; a
non-dict value is kept, rendered as Python `str` where the later
`%`-formatting would apply it.  `dict(items)` deduplication is applied
as each level returns.  `none` marks inputs on which the Python function
raises. -/
def flattenErrorDict : List (String × Json) → String → Option (List (String × String))
  | [], _ => some []
  | (k, v) :: rest, key =>
    let newKey := if key = "" then k else key ++ "." ++ k
    let head :=
      match v with
      | Json.obj fs =>
        match List.lookup "_errors" fs with
        | some (Json.arr xs) => (errorsLeafMsgs xs).map fun msg => [(newKey, msg)]
        | some _ => none
        | none => flattenErrorDict fs newKey
      | _ => some [(newKey, pyRepr v)]
    match head, flattenErrorDict rest key with
    | some hs, some ts => some (pyDict (hs ++ ts))
    | _, _ => none

/-- The `code` attribute set by `HTTPException.__init__`: for a dict
body the `code` entry with default `0`, otherwise `0`. -/
def excCode (message : Option Json) : Json :=
  match message with
  | some (Json.obj fs) => (List.lookup "code" fs).getD (Json.num 0)
  | _ => Json.num 0

/-- Values on which Python `len` is defined; the final f-string of
`HTTPException.__init__` calls `len(self.text)`. -/
def hasLen : Json → Bool
  | Json.str _ => true
  | Json.arr _ => true
  | Json.obj _ => true
  | _ => false

/-- Guard for the `len(self.text)` call closing
`HTTPException.__init__`; `none` marks the `TypeError` Python raises on
an unsized text value. -/
def checkLen (t : Json) : Option Json :=
  if hasLen t then some t else none

/-- The `text` attribute set by `HTTPException.__init__`: for a dict
body the `message` entry (default `""`), with the flattened `errors`
lines appended beneath it when an `errors` entry is present and truthy;
for a non-dict body the body itself when truthy, else `""`.  `none`
marks bodies on which the constructor itself raises. -/
def excText (message : Option Json) : Option Json :=
  match message with
  | some (Json.obj fs) =>
    let base := (List.lookup "message" fs).getD (Json.str "")
    match List.lookup "errors" fs with
    | some errs =>
      if jsonTruthy errs then
        match errs, base with
        | Json.obj efs, Json.str bs =>
          (flattenErrorDict efs "").bind fun items =>
            checkLen (Json.str (bs ++ "\n" ++
              String.intercalate "\n" (items.map fun kv => "In " ++ kv.1 ++ ": " ++ kv.2)))
        | _, _ => none
      else checkLen base
    | none => checkLen base
  | some m => checkLen (if jsonTruthy m then m else Json.str "")
  | none => checkLen (Json.str "")

/-- Models `HTTPException.__init__` building the attributes carried by a
raised error from the response status and the parsed body; `none` when
the constructor itself raises. -/
def mkHTTPExc (status : Nat) (message : Option Json) : Option HTTPErrInfo :=
  (excText message).map fun t => { status := status, code := excCode message, text := t }

/-- An HTTP response as the executor observes it: the status code and
the JSON parse of the body (`none` when `response.json()` raises a
decode error). -/
structure Response where
  status : Nat
  body : Option Json

/-- Outcome of one transport dispatch: a response, or an `OSError`
raised by `requests.request` carrying its `errno`. -/
inductive Attempt where
  | ok (r : Response)
  | fault (errno : Option Int)

/-- The observable outcome of one `BullhornClient.request` call: the
returned JSON, or the exception that propagates.  `jsonDecodeError` is
the propagated JSON decode failure from `response.json()` (the spec
taxonomy's `ParseError`), `osError` a propagated transport fault,
`initError` an exception raised inside `HTTPException.__init__` itself,
and `runtimeError` the final `RuntimeError("Unreachable code in HTTP
handling")`. -/
inductive ReqResult where
  | success (data : Json)
  | forbidden (e : HTTPErrInfo)
  | notFound (e : HTTPErrInfo)
  | serverError (e : HTTPErrInfo)
  | httpException (e : HTTPErrInfo)
  | jsonDecodeError
  | osError (errno : Option Int)
  | initError
  | runtimeError

/-- Instrumented result of one `request` call: the outcome, the number
of HTTP dispatches performed, and the `time.sleep` durations in order. -/
structure ExecTrace where
  result : ReqResult
  attempts : Nat
  sleeps : List Nat

/-- Raising one of the `HTTPException` classes with `(response, data)`,
as in `raise Forbidden(response, data)`; if the exception constructor
itself raises, that exception propagates instead (`initError`). -/
def raiseHTTP (mk : HTTPErrInfo → ReqResult) (status : Nat) (data : Option Json)
    (attempts : Nat) (sleeps : List Nat) : ExecTrace :=
  match mkHTTPExc status data with
  | some e => { result := mk e, attempts := attempts, sleeps := sleeps }
  | none => { result := ReqResult.initError, attempts := attempts, sleeps := sleeps }

/-- The retriable status test `status_code in {429, 500, 502, 503, 504,
524}`. -/
def isTransient (s : Nat) : Bool :=
  s == 429 || s == 500 || s == 502 || s == 503 || s == 504 || s == 524

/-- The `e.errno in (54, 10054)` test of the `except OSError` handler.
A propagated JSON decode error (requests' `JSONDecodeError` is a
`RequestException`, hence an `IOError`) has `errno` `None`, so it never
satisfies this test. -/
def retriableErrno : Option Int → Bool
  | some e => e == 54 || e == 10054
  | none => false

/-- One call of `BullhornClient.request` (lines 117-158 of
`bullhorn/client.py`), driven by a transport oracle `tr` giving the
outcome of each dispatch.  `rem` is the remaining iteration budget of
`for tries in range(5)` and `tries` the loop index; `resp` and `data`
model the `response` and `data` variables carried across iterations
(`none` meaning unassigned); `sleeps` and `attempts` instrument the
`time.sleep` calls and the dispatch count.  Header construction (lines
109-115) does not influence the modelled control flow and is not
consumed by the oracle.  When the budget is exhausted the code after the
loop runs: `BullhornServerError` or `HTTPException` from the last
response, or the final `RuntimeError` if no response was ever bound. -/
def requestAux (tr : Nat → Attempt) : Nat → Nat → Option Response → Option Json →
    List Nat → Nat → ExecTrace
  | 0, _tries, resp, data, sleeps, attempts =>
    match resp with
    | some r =>
      if r.status ≥ 500 then raiseHTTP ReqResult.serverError r.status data attempts sleeps
      else raiseHTTP ReqResult.httpException r.status data attempts sleeps
    | none => { result := ReqResult.runtimeError, attempts := attempts, sleeps := sleeps }
  | rem + 1, tries, resp, data, sleeps, attempts =>
    match tr tries with
    | Attempt.ok r =>
      match r.body with
      | some j =>
        if 200 ≤ r.status ∧ r.status < 300 then
          { result := ReqResult.success j, attempts := attempts + 1, sleeps := sleeps }
        else if isTransient r.status then
          requestAux tr rem (tries + 1) (some r) (some j) (sleeps ++ [1 + tries * 2]) (attempts + 1)
        else if r.status = 403 then
          raiseHTTP ReqResult.forbidden r.status (some j) (attempts + 1) sleeps
        else if r.status = 404 then
          raiseHTTP ReqResult.notFound r.status (some j) (attempts + 1) sleeps
        else if r.status ≥ 500 then
          raiseHTTP ReqResult.serverError r.status (some j) (attempts + 1) sleeps
        else
          raiseHTTP ReqResult.httpException r.status (some j) (attempts + 1) sleeps
      | none =>
        if tries < 4 ∧ retriableErrno none = true then
          requestAux tr rem (tries + 1) (some r) data (sleeps ++ [1 + tries * 2]) (attempts + 1)
        else { result := ReqResult.jsonDecodeError, attempts := attempts + 1, sleeps := sleeps }
    | Attempt.fault errno =>
      if tries < 4 ∧ retriableErrno errno = true then
        requestAux tr rem (tries + 1) resp data (sleeps ++ [1 + tries * 2]) (attempts + 1)
      else { result := ReqResult.osError errno, attempts := attempts + 1, sleeps := sleeps }

/-- `BullhornClient.request` on a fresh call: a five-iteration budget,
`tries = 0`, `response` and `data` unassigned, no sleeps yet. -/
def request (tr : Nat → Attempt) : ExecTrace :=
  requestAux tr 5 0 none none [] 0

/-- Client construction state: the session token and the base REST URL
(`BullhornClient.__init__`). -/
structure ClientState where
  token : Option String
  restUrl : String

/-- Exceptions observable from an accessor call: a route construction
error, a failure propagated out of `request`, or the
`KeyError`/`TypeError` of the final `request["data"]` subscript. -/
inductive CallError where
  | templateError (e : FmtError)
  | requestFailed (r : ReqResult)
  | dataIndexError

/-- Models `BullhornClient.get_placements`: builds the
`query/Placement` route from the caller's parameters, issues one
`request`, and returns the envelope's `data` entry.  The second
component logs the URL of every `request` call the accessor performs. -/
def get_placements (cl : ClientState) (tr : Nat → Attempt)
    (whereArg fields orderBy : String) (count start : Int) :
    Except CallError Json × List String :=
  match mkRoute "GET"
      (cl.restUrl ++ "query/Placement?where={where}&fields={fields}&orderBy={order_by}&count={count}&start={start}")
      [("where", Scalar.s whereArg), ("fields", Scalar.s fields), ("order_by", Scalar.s orderBy),
       ("count", Scalar.n count), ("start", Scalar.n start)] [] with
  | Except.error e => (Except.error (CallError.templateError e), [])
  | Except.ok route =>
    let t := request tr
    match t.result with
    | ReqResult.success j =>
      match j with
      | Json.obj fs =>
        match List.lookup "data" fs with
        | some d => (Except.ok d, [route.url])
        | none => (Except.error CallError.dataIndexError, [route.url])
      | _ => (Except.error CallError.dataIndexError, [route.url])
    | r => (Except.error (CallError.requestFailed r), [route.url])

/-- A URL template decomposed into literal runs and `{name}`
placeholders, the shape of every template in the repository. -/
inductive TmplPart where
  | lit (s : String)
  | ph (name : String)
deriving DecidableEq

/-- The template text denoted by a part list. -/
def renderParts : List TmplPart → String
  | [] => ""
  | TmplPart.lit s :: rest => s ++ renderParts rest
  | TmplPart.ph n :: rest => "\x7b" ++ n ++ "\x7d" ++ renderParts rest

/-- Characters allowed in a modelled placeholder name: everything
CPython's format machinery does not treat specially. -/
def goodNameChar (c : Char) : Bool :=
  !(c = obr || c = cbr || c = ':' || c = '!' || c = '.' || c = '[')

/-- Well-formedness of a template part: literal runs contain no braces,
placeholder names are non-empty and made of plain characters. -/
def wfPart : TmplPart → Bool
  | TmplPart.lit s => s.data.all fun c => !(c = obr) && !(c = cbr)
  | TmplPart.ph n => !(n = "") && n.data.all goodNameChar

/-- A part's placeholder (if any) has an entry in the parameter map. -/
def phSat (params : List (String × Scalar)) : TmplPart → Bool
  | TmplPart.lit _ => true
  | TmplPart.ph n => (List.lookup n params).isSome

/-- The lookup function `Route.__init__` passes to `format_map`: the
parameter map with string values percent-encoded. -/
def mfun (params : List (String × Scalar)) : String → Option String :=
  fun k => (List.lookup k params).map encodeParam

/-- The template with each placeholder replaced by its encoded
parameter, stated as the specification describes the produced URL. -/
def substParts (params : List (String × Scalar)) : List TmplPart → String
  | [] => ""
  | TmplPart.lit s :: rest => s ++ substParts params rest
  | TmplPart.ph n :: rest =>
    (((List.lookup n params).map encodeParam).getD "") ++ substParts params rest

/-- The query-string suffix appended by `Route.__init__`: empty for an
empty map, otherwise `?` plus the URL-encoded pairs in insertion
order. -/
def querySuffix (query_params : List (String × Scalar)) : String :=
  if query_params.isEmpty then "" else "?" ++ urlencodePy query_params

theorem str_mk_append (a b : List Char) : String.mk a ++ String.mk b = String.mk (a ++ b) := rfl

theorem str_append_assoc (a b c : String) : a ++ b ++ c = a ++ (b ++ c) := by
  cases a; cases b; cases c
  rw [str_mk_append, str_mk_append, str_mk_append, str_mk_append, List.append_assoc]

theorem str_empty_append (s : String) : "" ++ s = s := by
  cases s; rfl

theorem str_append_empty (s : String) : s ++ "" = s := by
  cases s
  rw [show ("" : String) = String.mk [] from rfl, str_mk_append, List.append_nil]

theorem pre_pre (a b : String) (r : Except FmtError String) : pre a (pre b r) = pre (a ++ b) r := by
  cases r <;> simp [pre, str_append_assoc]

theorem pre_empty (r : Except FmtError String) : pre "" r = r := by
  cases r <;> simp [pre, str_empty_append]

theorem pre_error (a : String) (e : FmtError) : pre a (Except.error e) = Except.error e := rfl

theorem data_obr : "\x7b".data = [obr] := rfl

theorem data_cbr : "\x7d".data = [cbr] := rfl

theorem good_ne (c : Char) (h : goodNameChar c = true) : ¬c = obr ∧ ¬c = cbr := by
  simp [goodNameChar] at h
  tauto

theorem fmAux_lit_append (m : String → Option String) (l cs : List Char)
    (hl : ∀ c ∈ l, ¬c = obr ∧ ¬c = cbr) :
    fmAux m FmtState.lit (l ++ cs) = pre (String.mk l) (fmAux m FmtState.lit cs) := by
  induction l with
  | nil =>
    rw [List.nil_append, show String.mk [] = "" from rfl, pre_empty]
  | cons c l ih =>
    have hc := hl c (List.mem_cons_self c l)
    rw [List.cons_append]
    rw [show fmAux m FmtState.lit (c :: (l ++ cs)) = pre c.toString (fmAux m FmtState.lit (l ++ cs)) by
      simp [fmAux, hc.1, hc.2]]
    rw [ih fun c hc' => hl c (List.mem_cons_of_mem _ hc'), pre_pre]
    rfl

theorem fmAux_field_append (m : String → Option String) (l cs : List Char) (acc : String)
    (hl : ∀ c ∈ l, goodNameChar c = true) :
    fmAux m (FmtState.inField acc) (l ++ (cbr :: cs)) =
      match m (acc ++ String.mk l) with
      | none => Except.error (FmtError.keyError (acc ++ String.mk l))
      | some v => pre v (fmAux m FmtState.lit cs) := by
  induction l generalizing acc with
  | nil =>
    rw [List.nil_append, show String.mk [] = "" from rfl, str_append_empty]
    simp [fmAux]
  | cons c l ih =>
    have hc := good_ne c (hl c (List.mem_cons_self c l))
    rw [List.cons_append]
    rw [show fmAux m (FmtState.inField acc) (c :: (l ++ cbr :: cs)) =
        fmAux m (FmtState.inField (acc.push c)) (l ++ cbr :: cs) by
      simp [fmAux, hc.1, hc.2]]
    rw [ih (acc.push c) fun c hc' => hl c (List.mem_cons_of_mem _ hc')]
    have hs : acc.push c ++ String.mk l = acc ++ String.mk (c :: l) := by
      apply String.ext
      rw [String.data_append, String.data_push]
      show (acc.data ++ [c]) ++ l = acc.data ++ (c :: l)
      simp [List.append_assoc]
    rw [hs]

theorem fmAux_ph (m : String → Option String) (n : String) (cs : List Char)
    (hn : ¬n = "") (hgood : ∀ c ∈ n.data, goodNameChar c = true) :
    fmAux m FmtState.lit (obr :: (n.data ++ (cbr :: cs))) =
      match m n with
      | none => Except.error (FmtError.keyError n)
      | some v => pre v (fmAux m FmtState.lit cs) := by
  rw [show fmAux m FmtState.lit (obr :: (n.data ++ (cbr :: cs))) =
      fmAux m FmtState.sawOpen (n.data ++ (cbr :: cs)) by simp [fmAux]]
  cases hd : n.data with
  | nil =>
    exact absurd (String.ext hd) hn
  | cons c ns =>
    have hgood' : ∀ x ∈ c :: ns, goodNameChar x = true := hd ▸ hgood
    have hc := good_ne c (hgood' c (List.mem_cons_self c ns))
    rw [List.cons_append]
    rw [show fmAux m FmtState.sawOpen (c :: (ns ++ cbr :: cs)) =
        fmAux m (FmtState.inField ("".push c)) (ns ++ cbr :: cs) by
      simp [fmAux, hc.1, hc.2]]
    rw [fmAux_field_append m ns cs ("".push c)
      fun x hx => hgood' x (List.mem_cons_of_mem _ hx)]
    have hs : "".push c ++ String.mk ns = n := by
      apply String.ext
      rw [String.data_append, String.data_push, hd]
      rfl
    rw [hs]

theorem render_ph_data (n R : String) :
    ("\x7b" ++ n ++ "\x7d" ++ R).data = obr :: (n.data ++ (cbr :: R.data)) := by
  rw [String.data_append, String.data_append, String.data_append, data_obr, data_cbr]
  simp

theorem wf_lit_braces (s : String) (h : wfPart (TmplPart.lit s) = true) :
    ∀ c ∈ s.data, ¬c = obr ∧ ¬c = cbr := by
  simp [wfPart] at h
  intro c hc
  exact ⟨(h c hc).1, (h c hc).2⟩

theorem wf_ph_name (n : String) (h : wfPart (TmplPart.ph n) = true) :
    ¬n = "" ∧ ∀ c ∈ n.data, goodNameChar c = true := by
  simpa [wfPart, List.all_eq_true] using h

theorem fmAux_render (params : List (String × Scalar)) (parts : List TmplPart) (cs : List Char)
    (hwf : ∀ p ∈ parts, wfPart p = true)
    (hsat : ∀ p ∈ parts, phSat params p = true) :
    fmAux (mfun params) FmtState.lit ((renderParts parts).data ++ cs) =
      pre (substParts params parts) (fmAux (mfun params) FmtState.lit cs) := by
  induction parts with
  | nil =>
    rw [renderParts, show ("" : String).data = ([] : List Char) from rfl, List.nil_append,
      substParts, pre_empty]
  | cons p rest ih =>
    have hwf1 := hwf p (List.mem_cons_self p rest)
    have hwfr : ∀ q ∈ rest, wfPart q = true := fun q hq => hwf q (List.mem_cons_of_mem _ hq)
    have hsatr : ∀ q ∈ rest, phSat params q = true := fun q hq => hsat q (List.mem_cons_of_mem _ hq)
    cases p with
    | lit s =>
      rw [renderParts, String.data_append, List.append_assoc,
        fmAux_lit_append _ _ _ (wf_lit_braces s hwf1), ih hwfr hsatr, pre_pre, substParts]
    | ph n =>
      have hwn := wf_ph_name n hwf1
      rw [renderParts, render_ph_data, List.cons_append, List.append_assoc, List.cons_append,
        fmAux_ph _ n _ hwn.1 hwn.2]
      have hsome : (List.lookup n params).isSome := by
        simpa [phSat] using hsat _ (List.mem_cons_self _ _)
      obtain ⟨v, hv⟩ := Option.isSome_iff_exists.mp hsome
      rw [show mfun params n = some (encodeParam v) by simp [mfun, hv]]
      show pre (encodeParam v) _ = _
      rw [ih hwfr hsatr, pre_pre, substParts, hv]
      rfl

theorem fmAux_render_err (params : List (String × Scalar)) (parts : List TmplPart) (cs : List Char)
    (hwf : ∀ p ∈ parts, wfPart p = true) (n : String)
    (hmem : TmplPart.ph n ∈ parts) (hmiss : List.lookup n params = none) :
    ∃ e, fmAux (mfun params) FmtState.lit ((renderParts parts).data ++ cs) = Except.error e := by
  induction parts with
  | nil => cases hmem
  | cons p rest ih =>
    have hwf1 := hwf p (List.mem_cons_self p rest)
    have hwfr : ∀ q ∈ rest, wfPart q = true := fun q hq => hwf q (List.mem_cons_of_mem _ hq)
    cases p with
    | lit s =>
      have hmem' : TmplPart.ph n ∈ rest := by
        rcases List.mem_cons.mp hmem with h | h
        · cases h
        · exact h
      rw [renderParts, String.data_append, List.append_assoc,
        fmAux_lit_append _ _ _ (wf_lit_braces s hwf1)]
      obtain ⟨e, he⟩ := ih hwfr hmem'
      exact ⟨e, by rw [he, pre_error]⟩
    | ph n' =>
      have hwn := wf_ph_name n' hwf1
      rw [renderParts, render_ph_data, List.cons_append, List.append_assoc, List.cons_append,
        fmAux_ph _ n' _ hwn.1 hwn.2]
      cases hm : mfun params n' with
      | none => exact ⟨FmtError.keyError n', rfl⟩
      | some v =>
        have hne : ¬n = n' := by
          intro h
          rw [show mfun params n' = (List.lookup n' params).map encodeParam from rfl, ← h,
            hmiss] at hm
          cases hm
        have hmem' : TmplPart.ph n ∈ rest := by
          rcases List.mem_cons.mp hmem with h | h
          · cases h
            exact absurd rfl hne
          · exact h
        obtain ⟨e, he⟩ := ih hwfr hmem'
        refine ⟨e, ?_⟩
        show pre v _ = _
        rw [he, pre_error]

theorem substParts_eq_render (params : List (String × Scalar)) (parts : List TmplPart)
    (h : ∀ n, ¬TmplPart.ph n ∈ parts) :
    substParts params parts = renderParts parts := by
  induction parts with
  | nil => rfl
  | cons p rest ih =>
    cases p with
    | lit s =>
      rw [substParts, renderParts, ih fun n hn => h n (List.mem_cons_of_mem _ hn)]
    | ph n => exact absurd (List.mem_cons_self _ _) (h n)

theorem formatMap_render (params : List (String × Scalar)) (parts : List TmplPart)
    (hwf : ∀ p ∈ parts, wfPart p = true)
    (hsat : ∀ p ∈ parts, phSat params p = true) :
    formatMap (renderParts parts) (mfun params) = Except.ok (substParts params parts) := by
  have h := fmAux_render params parts [] hwf hsat
  rw [List.append_nil] at h
  rw [formatMap, h, show fmAux (mfun params) FmtState.lit [] = Except.ok "" from rfl]
  simp [pre, str_append_empty]

theorem raiseHTTP_ne_runtime (mk : HTTPErrInfo → ReqResult)
    (hmk : ∀ e, mk e ≠ ReqResult.runtimeError) (status : Nat) (data : Option Json)
    (attempts : Nat) (sleeps : List Nat) :
    (raiseHTTP mk status data attempts sleeps).result ≠ ReqResult.runtimeError := by
  unfold raiseHTTP
  cases mkHTTPExc status data with
  | none => simp
  | some e => simpa using hmk e

theorem request_success (tr : Nat → Attempt) (r : Response) (j : Json)
    (h0 : tr 0 = Attempt.ok r) (hb : r.body = some j)
    (h2 : 200 ≤ r.status) (h3 : r.status < 300) :
    request tr = { result := ReqResult.success j, attempts := 1, sleeps := [] } := by
  simp [request, requestAux, h0, hb, h2, h3]

theorem requestAux_decode (tr : Nat → Attempt) (rem tries : Nat) (resp : Option Response)
    (data : Option Json) (sleeps : List Nat) (attempts : Nat) (r : Response)
    (h : tr tries = Attempt.ok r) (hb : r.body = none) :
    requestAux tr (rem + 1) tries resp data sleeps attempts =
      { result := ReqResult.jsonDecodeError, attempts := attempts + 1, sleeps := sleeps } := by
  simp [requestAux, h, hb, retriableErrno]

theorem requestAux_zero (tr : Nat → Attempt) (tries : Nat) (resp : Option Response)
    (data : Option Json) (sleeps : List Nat) (attempts : Nat) :
    requestAux tr 0 tries resp data sleeps attempts =
      match resp with
      | some r =>
        if r.status ≥ 500 then raiseHTTP ReqResult.serverError r.status data attempts sleeps
        else raiseHTTP ReqResult.httpException r.status data attempts sleeps
      | none => { result := ReqResult.runtimeError, attempts := attempts, sleeps := sleeps } := rfl

theorem requestAux_succ (tr : Nat → Attempt) (rem tries : Nat) (resp : Option Response)
    (data : Option Json) (sleeps : List Nat) (attempts : Nat) :
    requestAux tr (rem + 1) tries resp data sleeps attempts =
      match tr tries with
      | Attempt.ok r =>
        match r.body with
        | some j =>
          if 200 ≤ r.status ∧ r.status < 300 then
            { result := ReqResult.success j, attempts := attempts + 1, sleeps := sleeps }
          else if isTransient r.status then
            requestAux tr rem (tries + 1) (some r) (some j) (sleeps ++ [1 + tries * 2]) (attempts + 1)
          else if r.status = 403 then
            raiseHTTP ReqResult.forbidden r.status (some j) (attempts + 1) sleeps
          else if r.status = 404 then
            raiseHTTP ReqResult.notFound r.status (some j) (attempts + 1) sleeps
          else if r.status ≥ 500 then
            raiseHTTP ReqResult.serverError r.status (some j) (attempts + 1) sleeps
          else
            raiseHTTP ReqResult.httpException r.status (some j) (attempts + 1) sleeps
        | none =>
          if tries < 4 ∧ retriableErrno none = true then
            requestAux tr rem (tries + 1) (some r) data (sleeps ++ [1 + tries * 2]) (attempts + 1)
          else { result := ReqResult.jsonDecodeError, attempts := attempts + 1, sleeps := sleeps }
      | Attempt.fault errno =>
        if tries < 4 ∧ retriableErrno errno = true then
          requestAux tr rem (tries + 1) resp data (sleeps ++ [1 + tries * 2]) (attempts + 1)
        else { result := ReqResult.osError errno, attempts := attempts + 1, sleeps := sleeps } := rfl

theorem requestAux_ne_runtime (tr : Nat → Attempt) : ∀ (k tries : Nat) (resp : Option Response)
    (data : Option Json) (sleeps : List Nat) (attempts : Nat), tries + (k + 1) = 5 →
    (requestAux tr (k + 1) tries resp data sleeps attempts).result ≠ ReqResult.runtimeError := by
  intro k
  induction k with
  | zero =>
    intro tries resp data sleeps attempts htr
    have ht4 : tries = 4 := by omega
    subst ht4
    rw [requestAux_succ tr 0 4 resp data sleeps attempts]
    cases h : tr 4 with
    | fault errno =>
      dsimp only
      rw [if_neg fun hc => absurd hc.1 (by omega)]
      simp
    | ok r =>
      dsimp only
      cases hb : r.body with
      | none =>
        dsimp only
        rw [if_neg fun hc => by simpa [retriableErrno] using hc.2]
        simp
      | some j =>
        dsimp only
        by_cases h2 : 200 ≤ r.status ∧ r.status < 300
        · rw [if_pos h2]
          simp
        · rw [if_neg h2]
          by_cases htt : isTransient r.status = true
          · rw [if_pos htt, requestAux_zero]
            dsimp only
            split
            · exact raiseHTTP_ne_runtime ReqResult.serverError (fun e h => ReqResult.noConfusion h) _ _ _ _
            · exact raiseHTTP_ne_runtime ReqResult.httpException (fun e h => ReqResult.noConfusion h) _ _ _ _
          · rw [if_neg htt]
            by_cases h403 : r.status = 403
            · rw [if_pos h403]
              exact raiseHTTP_ne_runtime ReqResult.forbidden (fun e h => ReqResult.noConfusion h) _ _ _ _
            · rw [if_neg h403]
              by_cases h404 : r.status = 404
              · rw [if_pos h404]
                exact raiseHTTP_ne_runtime ReqResult.notFound (fun e h => ReqResult.noConfusion h) _ _ _ _
              · rw [if_neg h404]
                by_cases h500 : r.status ≥ 500
                · rw [if_pos h500]
                  exact raiseHTTP_ne_runtime ReqResult.serverError (fun e h => ReqResult.noConfusion h) _ _ _ _
                · rw [if_neg h500]
                  exact raiseHTTP_ne_runtime ReqResult.httpException (fun e h => ReqResult.noConfusion h) _ _ _ _
  | succ k ihk =>
    intro tries resp data sleeps attempts htr
    rw [requestAux_succ tr (k + 1) tries resp data sleeps attempts]
    cases h : tr tries with
    | fault errno =>
      dsimp only
      by_cases hc : tries < 4 ∧ retriableErrno errno = true
      · rw [if_pos hc]
        exact ihk (tries + 1) resp data (sleeps ++ [1 + tries * 2]) (attempts + 1) (by omega)
      · rw [if_neg hc]
        simp
    | ok r =>
      dsimp only
      cases hb : r.body with
      | none =>
        dsimp only
        rw [if_neg fun hc => by simpa [retriableErrno] using hc.2]
        simp
      | some j =>
        dsimp only
        by_cases h2 : 200 ≤ r.status ∧ r.status < 300
        · rw [if_pos h2]
          simp
        · rw [if_neg h2]
          by_cases htt : isTransient r.status = true
          · rw [if_pos htt]
            exact ihk (tries + 1) (some r) (some j) (sleeps ++ [1 + tries * 2]) (attempts + 1) (by omega)
          · rw [if_neg htt]
            by_cases h403 : r.status = 403
            · rw [if_pos h403]
              exact raiseHTTP_ne_runtime ReqResult.forbidden (fun e h => ReqResult.noConfusion h) _ _ _ _
            · rw [if_neg h403]
              by_cases h404 : r.status = 404
              · rw [if_pos h404]
                exact raiseHTTP_ne_runtime ReqResult.notFound (fun e h => ReqResult.noConfusion h) _ _ _ _
              · rw [if_neg h404]
                by_cases h500 : r.status ≥ 500
                · rw [if_pos h500]
                  exact raiseHTTP_ne_runtime ReqResult.serverError (fun e h => ReqResult.noConfusion h) _ _ _ _
                · rw [if_neg h500]
                  exact raiseHTTP_ne_runtime ReqResult.httpException (fun e h => ReqResult.noConfusion h) _ _ _ _

theorem not_2xx_of_transient (s : Nat) (h : isTransient s = true) : ¬(200 ≤ s ∧ s < 300) := by
  simp [isTransient] at h
  rcases h with h | h | h | h | h | h <;> omega

theorem requestAux_transient_step (tr : Nat → Attempt) (rem tries : Nat) (resp : Option Response)
    (data : Option Json) (sleeps : List Nat) (attempts : Nat) (r : Response) (j : Json)
    (h : tr tries = Attempt.ok r) (hb : r.body = some j) (htt : isTransient r.status = true) :
    requestAux tr (rem + 1) tries resp data sleeps attempts =
      requestAux tr rem (tries + 1) (some r) (some j) (sleeps ++ [1 + tries * 2]) (attempts + 1) := by
  rw [requestAux_succ tr rem tries resp data sleeps attempts, h]
  dsimp only
  rw [hb]
  dsimp only
  rw [if_neg (not_2xx_of_transient r.status htt), if_pos htt]

theorem request_transient_exhaustion (tr : Nat → Attempt) (r : Nat → Response) (b : Nat → Json)
    (e : HTTPErrInfo)
    (h : ∀ i, i < 5 → tr i = Attempt.ok (r i))
    (hb : ∀ i, i < 5 → (r i).body = some (b i))
    (ht : ∀ i, i < 5 → isTransient (r i).status = true)
    (h500 : (r 4).status ≥ 500)
    (he : mkHTTPExc (r 4).status (some (b 4)) = some e) :
    request tr = { result := ReqResult.serverError e, attempts := 5, sleeps := [1, 3, 5, 7, 9] } := by
  rw [request,
    requestAux_transient_step tr 4 0 none none [] 0 (r 0) (b 0)
      (h 0 (by omega)) (hb 0 (by omega)) (ht 0 (by omega)),
    requestAux_transient_step tr 3 1 (some (r 0)) (some (b 0)) _ _ (r 1) (b 1)
      (h 1 (by omega)) (hb 1 (by omega)) (ht 1 (by omega)),
    requestAux_transient_step tr 2 2 (some (r 1)) (some (b 1)) _ _ (r 2) (b 2)
      (h 2 (by omega)) (hb 2 (by omega)) (ht 2 (by omega)),
    requestAux_transient_step tr 1 3 (some (r 2)) (some (b 2)) _ _ (r 3) (b 3)
      (h 3 (by omega)) (hb 3 (by omega)) (ht 3 (by omega)),
    requestAux_transient_step tr 0 4 (some (r 3)) (some (b 3)) _ _ (r 4) (b 4)
      (h 4 (by omega)) (hb 4 (by omega)) (ht 4 (by omega)),
    requestAux_zero]
  dsimp only
  rw [if_pos h500]
  simp [raiseHTTP, he]

theorem request_forbidden (tr : Nat → Attempt) (r : Response) (j : Json) (e : HTTPErrInfo)
    (h0 : tr 0 = Attempt.ok r) (hs : r.status = 403) (hb : r.body = some j)
    (he : mkHTTPExc r.status (some j) = some e) :
    request tr = { result := ReqResult.forbidden e, attempts := 1, sleeps := [] } := by
  rw [request, requestAux_succ tr 4 0 none none [] 0, h0]
  dsimp only
  rw [hb]
  dsimp only
  rw [if_neg (by simp [hs]), if_neg (by simp [hs, isTransient]), if_pos hs]
  simp [raiseHTTP, he]

theorem mkHTTPExc_fields (status : Nat) (message : Option Json) (e : HTTPErrInfo)
    (he : mkHTTPExc status message = some e) :
    e.status = status ∧ e.code = excCode message ∧ excText message = some e.text := by
  unfold mkHTTPExc at he
  cases hx : excText message with
  | none =>
    rw [hx] at he
    cases he
  | some t =>
    rw [hx] at he
    simp at he
    subst he
    exact ⟨rfl, rfl, rfl⟩

theorem excCode_default (fs : List (String × Json)) (h : List.lookup "code" fs = none) :
    excCode (some (Json.obj fs)) = Json.num 0 := by
  simp [excCode, h]

theorem url_query_eq (u : String) (q : List (String × Scalar)) :
    (if q.isEmpty then u else u ++ "?" ++ urlencodePy q) = u ++ querySuffix q := by
  unfold querySuffix
  by_cases hq : q.isEmpty = true
  · rw [if_pos hq, if_pos hq, str_append_empty]
  · rw [if_neg hq, if_neg hq, str_append_assoc]

theorem get_placements_single (cl : ClientState) (tr : Nat → Attempt)
    (whereArg fields orderBy : String) (count start : Int) (route : Route)
    (r : Response) (j d : Json) (fs : List (String × Json))
    (hroute : mkRoute "GET"
        (cl.restUrl ++ "query/Placement?where={where}&fields={fields}&orderBy={order_by}&count={count}&start={start}")
        [("where", Scalar.s whereArg), ("fields", Scalar.s fields), ("order_by", Scalar.s orderBy),
         ("count", Scalar.n count), ("start", Scalar.n start)] [] = Except.ok route)
    (h0 : tr 0 = Attempt.ok r) (hb : r.body = some j)
    (h2 : 200 ≤ r.status) (h3 : r.status < 300)
    (hj : j = Json.obj fs) (hd : List.lookup "data" fs = some d) :
    get_placements cl tr whereArg fields orderBy count start = (Except.ok d, [route.url]) := by
  unfold get_placements
  rw [hroute]
  dsimp only
  rw [request_success tr r j h0 hb h2 h3]
  dsimp only
  rw [hj]
  dsimp only
  rw [hd]

/-- C1 counterexample: a transport answering status 500 with an empty
JSON object on every attempt drives `request` through exactly 5 attempts
and FIVE sleeps of 1, 3, 5, 7 and 9 seconds — the loop also sleeps after
the final attempt — before raising `BullhornServerError`; the claimed
schedule of four sleeps 1, 3, 5, 7 is therefore wrong. -/
theorem C1_counterexample :
    request (fun _ => Attempt.ok { status := 500, body := some (Json.obj []) }) =
      { result := ReqResult.serverError { status := 500, code := Json.num 0, text := Json.str "" },
        attempts := 5, sleeps := [1, 3, 5, 7, 9] } ∧
    ([1, 3, 5, 7, 9] : List Nat) ≠ [1, 3, 5, 7] :=
  ⟨rfl, by decide⟩

/-- C1 (amended): when every one of the five attempts yields a response
with a valid-JSON body and a status in the transient set
`{429, 500, 502, 503, 504, 524}`, `request` performs exactly 5 attempts,
sleeps 1, 3, 5, 7 and 9 seconds (one sleep after every attempt, the
last one included), and then raises `BullhornServerError` built from the
last response when its status is at least 500. -/
theorem C1_amended_retry_exhaustion (tr : Nat → Attempt) (r : Nat → Response) (b : Nat → Json)
    (e : HTTPErrInfo)
    (h : ∀ i, i < 5 → tr i = Attempt.ok (r i))
    (hb : ∀ i, i < 5 → (r i).body = some (b i))
    (ht : ∀ i, i < 5 → isTransient (r i).status = true)
    (h500 : (r 4).status ≥ 500)
    (he : mkHTTPExc (r 4).status (some (b 4)) = some e) :
    request tr = { result := ReqResult.serverError e, attempts := 5, sleeps := [1, 3, 5, 7, 9] } :=
  request_transient_exhaustion tr r b e h hb ht h500 he

/-- C1 witness: the amended statement applied to the all-500 transport. -/
theorem C1_amended_witness :
    request (fun _ => Attempt.ok { status := 500, body := some (Json.obj []) }) =
      { result := ReqResult.serverError { status := 500, code := Json.num 0, text := Json.str "" },
        attempts := 5, sleeps := [1, 3, 5, 7, 9] } :=
  C1_amended_retry_exhaustion (fun _ => Attempt.ok { status := 500, body := some (Json.obj []) })
    (fun _ => { status := 500, body := some (Json.obj []) }) (fun _ => Json.obj [])
    { status := 500, code := Json.num 0, text := Json.str "" }
    (fun _ _ => rfl) (fun _ _ => rfl) (fun _ _ => rfl) (by decide) rfl

/-- C4: a response with a 2xx status whose body is not valid JSON makes
`request` fail with the propagated JSON decode error — the spec
taxonomy's `ParseError` — after exactly one attempt and no sleeps, and
that outcome is distinct from every typed HTTP error and from a
propagated transport fault. -/
theorem C4_parse_error_on_2xx (tr : Nat → Attempt) (r : Response)
    (h0 : tr 0 = Attempt.ok r) (hb : r.body = none)
    (h2 : 200 ≤ r.status) (h3 : r.status < 300) :
    request tr = { result := ReqResult.jsonDecodeError, attempts := 1, sleeps := [] } ∧
    (∀ e, ReqResult.jsonDecodeError ≠ ReqResult.forbidden e) ∧
    (∀ e, ReqResult.jsonDecodeError ≠ ReqResult.notFound e) ∧
    (∀ e, ReqResult.jsonDecodeError ≠ ReqResult.serverError e) ∧
    (∀ e, ReqResult.jsonDecodeError ≠ ReqResult.httpException e) ∧
    (∀ er, ReqResult.jsonDecodeError ≠ ReqResult.osError er) :=
  ⟨requestAux_decode tr 4 0 none none [] 0 r h0 hb,
   fun _ h => ReqResult.noConfusion h, fun _ h => ReqResult.noConfusion h,
   fun _ h => ReqResult.noConfusion h, fun _ h => ReqResult.noConfusion h,
   fun _ h => ReqResult.noConfusion h⟩

/-- C4 witness: a 204 response with an invalid body propagates the
decode error after one attempt. -/
theorem C4_witness :
    request (fun _ => Attempt.ok { status := 204, body := none }) =
      { result := ReqResult.jsonDecodeError, attempts := 1, sleeps := [] } :=
  (C4_parse_error_on_2xx (fun _ => Attempt.ok { status := 204, body := none })
    { status := 204, body := none } rfl rfl (by decide) (by decide)).1

/-- C6: a response with status in [200, 300) and a valid-JSON body makes
`request` return the parsed body after exactly one attempt with zero
sleeps. -/
theorem C6_success_single_attempt (tr : Nat → Attempt) (r : Response) (j : Json)
    (h0 : tr 0 = Attempt.ok r) (hb : r.body = some j)
    (h2 : 200 ≤ r.status) (h3 : r.status < 300) :
    request tr = { result := ReqResult.success j, attempts := 1, sleeps := [] } :=
  request_success tr r j h0 hb h2 h3

/-- C6 witness: a 200 response returning `null` succeeds on the first
attempt. -/
theorem C6_witness :
    request (fun _ => Attempt.ok { status := 200, body := some Json.null }) =
      { result := ReqResult.success Json.null, attempts := 1, sleeps := [] } :=
  C6_success_single_attempt (fun _ => Attempt.ok { status := 200, body := some Json.null })
    { status := 200, body := some Json.null } Json.null rfl rfl (by decide) (by decide)

/-- C7: a first response with status 403 and a valid-JSON body makes
`request` raise `Forbidden` immediately — one attempt, no sleeps — and
the raised error carries the response's status 403, the provider code
from the body (defaulting to 0 when a dict body has no `code` entry) and
the message text extracted from the body. -/
theorem C7_forbidden_immediate (tr : Nat → Attempt) (r : Response) (j : Json) (e : HTTPErrInfo)
    (h0 : tr 0 = Attempt.ok r) (hs : r.status = 403) (hb : r.body = some j)
    (he : mkHTTPExc r.status (some j) = some e) :
    request tr = { result := ReqResult.forbidden e, attempts := 1, sleeps := [] } ∧
    e.status = 403 ∧ e.code = excCode (some j) ∧
    (∀ fs, j = Json.obj fs → List.lookup "code" fs = none → e.code = Json.num 0) ∧
    excText (some j) = some e.text := by
  have hf := mkHTTPExc_fields r.status (some j) e he
  refine ⟨request_forbidden tr r j e h0 hs hb he, hs ▸ hf.1, hf.2.1, ?_, hf.2.2⟩
  intro fs hj hcode
  rw [hf.2.1, hj, excCode_default fs hcode]

/-- C7 witness: a 403 response with body `{"message": "no"}` raises
`Forbidden` with status 403, code 0 and text `"no"` on the first
attempt. -/
theorem C7_witness :
    request (fun _ => Attempt.ok { status := 403, body := some (Json.obj [("message", Json.str "no")]) }) =
      { result := ReqResult.forbidden { status := 403, code := Json.num 0, text := Json.str "no" },
        attempts := 1, sleeps := [] } :=
  (C7_forbidden_immediate
    (fun _ => Attempt.ok { status := 403, body := some (Json.obj [("message", Json.str "no")]) })
    { status := 403, body := some (Json.obj [("message", Json.str "no")]) }
    (Json.obj [("message", Json.str "no")])
    { status := 403, code := Json.num 0, text := Json.str "no" } rfl rfl rfl rfl).1

/-- C8: at any reachable state of the retry loop, a response whose body
is not valid JSON ends the call at once: the decode exception
propagates (it is an `OSError` whose `errno` is `None`, so the retry
test fails), with one more attempt, no added sleep, and no typed HTTP
error — whatever the response's status. -/
theorem C8_parse_before_classify (tr : Nat → Attempt) (rem tries : Nat) (resp : Option Response)
    (data : Option Json) (sleeps : List Nat) (attempts : Nat) (r : Response)
    (h : tr tries = Attempt.ok r) (hb : r.body = none) :
    requestAux tr (rem + 1) tries resp data sleeps attempts =
      { result := ReqResult.jsonDecodeError, attempts := attempts + 1, sleeps := sleeps } :=
  requestAux_decode tr rem tries resp data sleeps attempts r h hb

/-- C8 witness: a non-JSON body on a 500 response — a transient status —
propagates the decode error from the first attempt with no sleeps. -/
theorem C8_witness :
    requestAux (fun _ => Attempt.ok { status := 500, body := none }) 5 0 none none [] 0 =
      { result := ReqResult.jsonDecodeError, attempts := 1, sleeps := [] } :=
  C8_parse_before_classify (fun _ => Attempt.ok { status := 500, body := none }) 4 0 none none [] 0
    { status := 500, body := none } rfl rfl

/-- C9: the final `RuntimeError("Unreachable code in HTTP handling")`
branch is unreachable: no transport behaviour can make `request` end in
`runtimeError`, because the loop only exits normally through the
transient branch, which always binds a response for the post-loop
raise. -/
theorem C9_no_runtime_error (tr : Nat → Attempt) : (request tr).result ≠ ReqResult.runtimeError :=
  requestAux_ne_runtime tr 4 0 none none [] 0 rfl

theorem mkRoute_nil_params (method path : String) (q : List (String × Scalar)) :
    mkRoute method path [] q =
      Except.ok { method := method, path := path,
                  url := if q.isEmpty then path else path ++ "?" ++ urlencodePy q } := rfl

/-- C10: constructing a `Route` with an empty path-parameter map never
substitutes anything: it always succeeds and the URL is the template
verbatim (with the query string appended when the query map is
non-empty), even when `{name}` placeholders remain in the template. -/
theorem C10_empty_params_verbatim (method path : String) (query_params : List (String × Scalar)) :
    mkRoute method path [] query_params =
      Except.ok { method := method, path := path,
                  url := if query_params.isEmpty then path
                         else path ++ "?" ++ urlencodePy query_params } :=
  mkRoute_nil_params method path query_params

/-- C3 counterexample: the template `entity/{entityType}` has a
placeholder with no entry in the empty path-parameter map, yet `Route`
construction succeeds and silently produces a URL containing the
untouched placeholder — it does not fail with a `TemplateError`. -/
theorem C3_counterexample :
    renderParts [TmplPart.lit "entity/", TmplPart.ph "entityType"] = "entity/{entityType}" ∧
    List.lookup "entityType" ([] : List (String × Scalar)) = none ∧
    mkRoute "GET" "entity/{entityType}" [] [] =
      Except.ok { method := "GET", path := "entity/{entityType}", url := "entity/{entityType}" } :=
  ⟨rfl, rfl, rfl⟩

/-- C3 (amended): when the path-parameter map is non-empty, a `{name}`
placeholder of the template with no entry in the map makes `Route`
construction fail (Python's `KeyError`, the spec's `TemplateError`);
with an empty map no substitution is attempted at all, so the template
is kept verbatim. -/
theorem C3_amended_missing_param_fails (method : String) (parts : List TmplPart)
    (params query_params : List (String × Scalar)) (n : String)
    (hne : params ≠ [])
    (hwf : ∀ p ∈ parts, wfPart p = true)
    (hmem : TmplPart.ph n ∈ parts)
    (hmiss : List.lookup n params = none) :
    ∃ e, mkRoute method (renderParts parts) params query_params = Except.error e := by
  obtain ⟨e, he⟩ := fmAux_render_err params parts [] hwf n hmem hmiss
  rw [List.append_nil] at he
  refine ⟨e, ?_⟩
  have hemp : params.isEmpty = false := by
    cases params
    · exact absurd rfl hne
    · rfl
  unfold mkRoute
  rw [hemp]
  rw [if_neg (fun hc => Bool.noConfusion hc)]
  rw [show formatMap (renderParts parts) (fun k => (List.lookup k params).map encodeParam) =
      Except.error e from he]

/-- C3 witness: the amended statement at template `a/{x}` with the
non-empty map `{y: z}` missing `x`. -/
theorem C3_amended_witness :
    ∃ e, mkRoute "GET" (renderParts [TmplPart.lit "a/", TmplPart.ph "x"])
      [("y", Scalar.s "z")] [] = Except.error e :=
  C3_amended_missing_param_fails "GET" [TmplPart.lit "a/", TmplPart.ph "x"]
    [("y", Scalar.s "z")] [] "x" (by decide) (by decide) (by decide) (by decide)

/-- C5: for a well-formed template whose placeholders all have entries
in the path-parameter map, `Route` construction succeeds and the URL is
the template with each `{name}` placeholder replaced by the
percent-encoded form of a string value and the verbatim rendering of a
non-string value, followed — when the query map is non-empty — by `?`
and the URL-encoded query pairs in insertion order. -/
theorem C5_url_substitution (method : String) (parts : List TmplPart)
    (params query_params : List (String × Scalar))
    (hwf : ∀ p ∈ parts, wfPart p = true)
    (hsat : ∀ p ∈ parts, phSat params p = true) :
    mkRoute method (renderParts parts) params query_params =
      Except.ok { method := method, path := renderParts parts,
                  url := substParts params parts ++ querySuffix query_params } := by
  by_cases hemp : params.isEmpty = true
  · have hpnil : params = [] := by
      cases params
      · rfl
      · cases hemp
    subst hpnil
    have hnoph : ∀ n, ¬TmplPart.ph n ∈ parts := by
      intro n hn
      have hs := hsat _ hn
      simp [phSat] at hs
    rw [mkRoute_nil_params, substParts_eq_render [] parts hnoph, url_query_eq]
  · have hemp' : params.isEmpty = false := by
      cases h : params.isEmpty
      · rfl
      · exact absurd h hemp
    unfold mkRoute
    rw [hemp']
    rw [if_neg (fun hc => Bool.noConfusion hc)]
    rw [show formatMap (renderParts parts) (fun k => (List.lookup k params).map encodeParam) =
        Except.ok (substParts params parts) from formatMap_render params parts hwf hsat]
    dsimp only
    rw [url_query_eq]

/-- C5 witness: the repository's own test vector — the entity template
with string path parameters and a string-and-int query map. -/
theorem C5_witness :
    mkRoute "GET"
      (renderParts [TmplPart.lit "entity/", TmplPart.ph "entityType",
        TmplPart.lit "/", TmplPart.ph "entityId"])
      [("entityType", Scalar.s "Candidate"), ("entityId", Scalar.s "123456789")]
      [("fields", Scalar.s "firstName,lastName,address"), ("count", Scalar.n 5)] =
      Except.ok { method := "GET",
                  path := renderParts [TmplPart.lit "entity/", TmplPart.ph "entityType",
                    TmplPart.lit "/", TmplPart.ph "entityId"],
                  url := substParts
                      [("entityType", Scalar.s "Candidate"), ("entityId", Scalar.s "123456789")]
                      [TmplPart.lit "entity/", TmplPart.ph "entityType",
                       TmplPart.lit "/", TmplPart.ph "entityId"] ++
                    querySuffix [("fields", Scalar.s "firstName,lastName,address"),
                      ("count", Scalar.n 5)] } :=
  C5_url_substitution "GET"
    [TmplPart.lit "entity/", TmplPart.ph "entityType", TmplPart.lit "/", TmplPart.ph "entityId"]
    [("entityType", Scalar.s "Candidate"), ("entityId", Scalar.s "123456789")]
    [("fields", Scalar.s "firstName,lastName,address"), ("count", Scalar.n 5)]
    (by decide) (by decide)

set_option maxRecDepth 8000 in
/-- Regression vector: the substituted and encoded URL of the entity
template equals the URL asserted by the repository's own
`test_route_url_params`. -/
theorem route_url_test_vector :
    mkRoute "GET" "entity/{entityType}/{entityId}"
      [("entityType", Scalar.s "Candidate"), ("entityId", Scalar.s "123456789")]
      [("fields", Scalar.s "firstName,lastName,address"), ("count", Scalar.n 5)] =
      Except.ok { method := "GET", path := "entity/{entityType}/{entityId}",
                  url := "entity/Candidate/123456789?fields=firstName%2ClastName%2Caddress&count=5" } :=
  rfl

set_option maxRecDepth 8000 in
/-- C2 counterexample: with a transport whose envelope reports
`total = 25, count = 10` and carries a 10-element `data` page,
`get_placements` performs exactly ONE page fetch (one logged request
URL, with the caller's `start = 0`) and returns that single page of
length 10 — not three fetches and not 25 concatenated records. -/
theorem C2_counterexample :
    get_placements { token := none, restUrl := "" }
      (fun _ => Attempt.ok { status := 200, body := some (Json.obj
        [("total", Json.num 25), ("start", Json.num 0), ("count", Json.num 10),
         ("data", Json.arr (List.replicate 10 (Json.obj [("id", Json.num 1)])))]) })
      "w" "f" "" 10 0 =
      (Except.ok (Json.arr (List.replicate 10 (Json.obj [("id", Json.num 1)]))),
       ["query/Placement?where=w&fields=f&orderBy=&count=10&start=0"]) ∧
    (List.replicate 10 (Json.obj [("id", Json.num 1)])).length = 10 ∧
    ["query/Placement?where=w&fields=f&orderBy=&count=10&start=0"].length = 1 ∧
    (10 : Nat) ≠ 25 ∧ (1 : Nat) ≠ 3 :=
  ⟨rfl, by decide, rfl, by decide, by decide⟩

/-- C2 (amended): `get_placements` performs exactly one page fetch —
the single route it builds from the caller's `where`, `fields`,
`orderBy`, `count` and `start` arguments — and returns only that
envelope's `data` sequence; it never loops pages or concatenates across
envelopes. -/
theorem C2_amended_single_fetch (cl : ClientState) (tr : Nat → Attempt)
    (whereArg fields orderBy : String) (count start : Int) (route : Route)
    (r : Response) (j d : Json) (fs : List (String × Json))
    (hroute : mkRoute "GET"
        (cl.restUrl ++ "query/Placement?where={where}&fields={fields}&orderBy={order_by}&count={count}&start={start}")
        [("where", Scalar.s whereArg), ("fields", Scalar.s fields), ("order_by", Scalar.s orderBy),
         ("count", Scalar.n count), ("start", Scalar.n start)] [] = Except.ok route)
    (h0 : tr 0 = Attempt.ok r) (hb : r.body = some j)
    (h2 : 200 ≤ r.status) (h3 : r.status < 300)
    (hj : j = Json.obj fs) (hd : List.lookup "data" fs = some d) :
    get_placements cl tr whereArg fields orderBy count start = (Except.ok d, [route.url]) ∧
    [route.url].length = 1 :=
  ⟨get_placements_single cl tr whereArg fields orderBy count start route r j d fs
    hroute h0 hb h2 h3 hj hd, rfl⟩

set_option maxRecDepth 8000 in
/-- C2 witness: the amended statement at a concrete envelope. -/
theorem C2_amended_witness :
    get_placements { token := none, restUrl := "" }
      (fun _ => Attempt.ok { status := 200, body := some (Json.obj [("data", Json.arr [])]) })
      "w" "f" "" 10 0 =
      (Except.ok (Json.arr []),
       [({ method := "GET",
           path := "query/Placement?where={where}&fields={fields}&orderBy={order_by}&count={count}&start={start}",
           url := "query/Placement?where=w&fields=f&orderBy=&count=10&start=0" } : Route).url]) :=
  (C2_amended_single_fetch { token := none, restUrl := "" }
    (fun _ => Attempt.ok { status := 200, body := some (Json.obj [("data", Json.arr [])]) })
    "w" "f" "" 10 0
    { method := "GET",
      path := "query/Placement?where={where}&fields={fields}&orderBy={order_by}&count={count}&start={start}",
      url := "query/Placement?where=w&fields=f&orderBy=&count=10&start=0" }
    { status := 200, body := some (Json.obj [("data", Json.arr [])]) }
    (Json.obj [("data", Json.arr [])]) (Json.arr []) [("data", Json.arr [])]
    rfl rfl rfl (by decide) (by decide) rfl rfl).1
